import Mathlib

/-!
Shallow embedding of `src/app.py`: a Flask demo service with three GET
routes (`/`, `/metrics`, `/error`) instrumented with OpenTelemetry.

Each handler is modelled as a pure function from the random draws it
consumes (`random.uniform`, `random.randint`, `random.random`) to the
HTTP response it returns together with the ordered trace of telemetry
side effects it performs (log emissions, span lifecycle operations,
metric instrument recordings).  Python floats are modelled as rationals.
-/

namespace SimpleApp

/-- Scalar JSON values as produced by Flask's jsonify. -/
inductive JVal
  | jstr (s : String)
  | jint (n : Int)
  | jfloat (q : ℚ)
  deriving DecidableEq, Repr

/-- An HTTP response: status code and JSON object body (ordered key-value
pairs, as the dict literals in app.py). `jsonify(x)` without an explicit
code has status 200. -/
structure Response where
  status : Nat
  body : List (String × JVal)
  deriving DecidableEq, Repr

/-- Python logging levels used in app.py. -/
inductive LogLevel
  | debug | info | warning | error
  deriving DecidableEq, Repr

/-- OpenTelemetry span status codes. -/
inductive SpanStatusCode
  | unset | ok | error
  deriving DecidableEq, Repr

/-- Attribute bag: string keys to string values (all attribute values in
app.py are string literals). -/
abbrev Attrs := List (String × String)

/-- One telemetry side effect performed by a handler, in program order. -/
inductive Event
  | logEmit (level : LogLevel) (msg : String)
  | spanStart (name : String)
  | spanSetAttr (key val : String)
  | spanSetStatus (code : SpanStatusCode)
  | spanEnd
  | counterAdd (name : String) (value : Int) (attrs : Attrs)
  | histRecord (name : String) (value : ℚ) (attrs : Attrs)
  | upDownAdd (name : String) (delta : Int) (attrs : Attrs)
  | gaugeObserve (name : String) (value : JVal)
  deriving DecidableEq, Repr

/-- Embeds `Resource.create({"service.name": "simple-app"})` (app.py line 20). -/
def resource : Attrs := [("service.name", "simple-app")]

/-- A provider owns a Resource (app.py constructs each provider with
`resource=resource`). -/
structure Provider where
  res : Attrs
  deriving DecidableEq, Repr

/-- Embeds `LoggerProvider(resource=resource)` (app.py line 23). -/
def logger_provider : Provider := ⟨resource⟩

/-- Embeds `TracerProvider(resource=resource)` (app.py line 37). -/
def trace_provider : Provider := ⟨resource⟩

/-- Embeds `MeterProvider(resource=resource, metric_readers=[metric_reader])`
(app.py line 48). -/
def meter_provider : Provider := ⟨resource⟩

/-- Modelled from the spec: an exported telemetry record is stamped with
the owning provider's Resource ("every emitted record (span, metric
point, log) carries the process-wide Resource"); the stamping itself
happens inside the OpenTelemetry SDK, outside src/. -/
structure ExportedRecord where
  res : Attrs
  payload : Event
  deriving DecidableEq, Repr

/-- Modelled from the spec: a provider hands a record to its export
pipeline by attaching its Resource. -/
def exportRecord (p : Provider) (e : Event) : ExportedRecord := ⟨p.res, e⟩

/-- Metric instrument handle: counter, histogram or up/down counter. -/
structure Instrument where
  name : String
  description : String
  unit : String
  deriving DecidableEq, Repr

/-- Embeds `meter.create_counter("http_requests_total", ...)` (app.py 52-56). -/
def request_counter : Instrument :=
  ⟨"http_requests_total", "Total number of HTTP requests", "1"⟩

/-- Embeds `meter.create_histogram("http_request_duration_seconds", ...)`
(app.py 58-62). -/
def request_duration : Instrument :=
  ⟨"http_request_duration_seconds", "HTTP request duration in seconds", "s"⟩

/-- Embeds `meter.create_up_down_counter("active_users", ...)` (app.py 64-68). -/
def active_users : Instrument :=
  ⟨"active_users", "Number of active users", "1"⟩

/-- Embeds `meter.create_counter("http_errors_total", ...)` (app.py 70-74). -/
def error_counter : Instrument :=
  ⟨"http_errors_total", "Total number of HTTP errors", "1"⟩

/-- An observable gauge: pull-based, with registered callbacks.  A
callback consumes one random draw from the oracle (modelling the
`random.randint` / `random.uniform` call inside the lambda) and returns
its value together with the list of side effects it performs on program
state. -/
structure ObservableGauge (α : Type) where
  name : String
  description : String
  unit : String
  callbacks : List (α → α × List Event)

/-- Embeds `meter.create_observable_gauge("memory_usage_bytes", ...,
callbacks=[lambda: random.randint(1000000, 2000000)])` (app.py 76-81):
the lambda returns the fresh random draw and performs no side effect on
program state. -/
def memory_usage : ObservableGauge Int :=
  ⟨"memory_usage_bytes", "Memory usage in bytes", "bytes",
   [fun draw => (draw, [])]⟩

/-- Embeds `meter.create_observable_gauge("cpu_usage_percent", ...,
callbacks=[lambda: random.uniform(10, 90)])` (app.py 83-88). -/
def cpu_usage : ObservableGauge ℚ :=
  ⟨"cpu_usage_percent", "CPU usage percentage", "percent",
   [fun draw => (draw, [])]⟩

/-- Modelled from the spec: at each export tick the metric provider
invokes every registered gauge callback synchronously and turns the
returned value into a gauge data point.  The callback side effects (if
any) and the observations appear in the emitted event list. -/
def exportTick (memDraw : Int) (cpuDraw : ℚ) : List Event :=
  (memory_usage.callbacks.flatMap (fun cb =>
    (cb memDraw).2 ++ [Event.gaugeObserve memory_usage.name (JVal.jint (cb memDraw).1)])) ++
  (cpu_usage.callbacks.flatMap (fun cb =>
    (cb cpuDraw).2 ++ [Event.gaugeObserve cpu_usage.name (JVal.jfloat (cb cpuDraw).1)]))

/-- Random draws consumed by one execution of `hello` (app.py 95-121):
`sleep_time = random.uniform(0.1, 0.5)`, `random.randint(-1, 1)` for the
active-users delta, and `random.random()` for the 10% error branch. -/
structure HelloRand where
  sleep : ℚ
  userDelta : Int
  errDraw : ℚ
  deriving DecidableEq, Repr

/-- Handler for `/` (app.py 95-121), line by line.  `time.sleep` is a
real-time effect with no telemetry footprint and is not an event. -/
def hello (r : HelloRand) : Response × List Event :=
  let pre : List Event :=
    [Event.logEmit .info "Received request to / endpoint",
     Event.spanStart "hello_operation",
     Event.spanSetAttr "operation.type" "hello",
     Event.logEmit .debug "Processing request, sleeping",
     Event.counterAdd request_counter.name 1 [("endpoint", "/"), ("method", "GET")],
     Event.histRecord request_duration.name r.sleep [("endpoint", "/")],
     Event.upDownAdd active_users.name r.userDelta []]
  if r.errDraw < 1/10 then
    (⟨500, [("error", JVal.jstr "Simulated error")]⟩,
     pre ++
     [Event.logEmit .error "Simulated error occurred at / endpoint",
      Event.counterAdd error_counter.name 1 [("endpoint", "/"), ("error_type", "simulated")],
      Event.spanSetStatus .error,
      Event.spanEnd])
  else
    (⟨200, [("message", JVal.jstr "Hello, OpenTelemetry!")]⟩,
     pre ++
     [Event.logEmit .info "Successfully processed request to / endpoint",
      Event.spanEnd])

/-- Random draws consumed by one execution of `metrics_endpoint`
(app.py 123-148): sleep time, active-users delta, and the three fake
metric values of the response body. -/
structure MetricsRand where
  sleep : ℚ
  userDelta : Int
  activeUsersVal : Int
  memVal : Int
  cpuVal : ℚ
  deriving DecidableEq, Repr

/-- Handler for `/metrics` (app.py 123-148), line by line. -/
def metrics_endpoint (r : MetricsRand) : Response × List Event :=
  (⟨200, [("active_users", JVal.jint r.activeUsersVal),
          ("memory_usage", JVal.jint r.memVal),
          ("cpu_usage", JVal.jfloat r.cpuVal)]⟩,
   [Event.logEmit .info "Received request to /metrics endpoint",
    Event.spanStart "metrics_operation",
    Event.spanSetAttr "operation.type" "metrics",
    Event.logEmit .debug "Fetching metrics",
    Event.counterAdd request_counter.name 1 [("endpoint", "/metrics"), ("method", "GET")],
    Event.histRecord request_duration.name r.sleep [("endpoint", "/metrics")],
    Event.upDownAdd active_users.name r.userDelta [],
    Event.logEmit .info "Returning metrics data",
    Event.spanEnd])

/-- Handler for `/error` (app.py 150-165), line by line.  It consumes no
random draws; note that it records no histogram observation and touches
no up/down counter. -/
def error_endpoint : Response × List Event :=
  (⟨500, [("error", JVal.jstr "Simulated error")]⟩,
   [Event.logEmit .warning "Received request to /error endpoint - intentional error simulation",
    Event.spanStart "error_operation",
    Event.spanSetAttr "operation.type" "error",
    Event.counterAdd request_counter.name 1 [("endpoint", "/error"), ("method", "GET")],
    Event.counterAdd error_counter.name 1 [("endpoint", "/error"), ("error_type", "simulated")],
    Event.spanSetStatus .error,
    Event.logEmit .error "Intentional error raised at /error endpoint",
    Event.spanEnd])

/-! ### Trace analysis helpers -/

/-- Is this event an increment of the counter instrument `instName`
carrying the attribute `("endpoint", ep)`? -/
def isTaggedCounterAdd (instName ep : String) : Event → Bool
  | .counterAdd n _ attrs => n == instName && attrs.contains ("endpoint", ep)
  | _ => false

/-- Is this event any increment of the counter instrument `instName`? -/
def isCounterAdd (instName : String) : Event → Bool
  | .counterAdd n _ _ => n == instName
  | _ => false

/-- Is this event a histogram observation on `instName` tagged
`("endpoint", ep)`? -/
def isTaggedHistRecord (instName ep : String) : Event → Bool
  | .histRecord n _ attrs => n == instName && attrs.contains ("endpoint", ep)
  | _ => false

/-- Is this event any histogram observation on `instName`? -/
def isHistRecord (instName : String) : Event → Bool
  | .histRecord n _ _ => n == instName
  | _ => false

/-- Is this event a span-end operation? -/
def isSpanEnd : Event → Bool
  | .spanEnd => true
  | _ => false

/-- Is this event a span-start operation? -/
def isSpanStart : Event → Bool
  | .spanStart _ => true
  | _ => false

/-- Does this event mutate the current span (start it, set an attribute,
or set its status)? -/
def isSpanMutation : Event → Bool
  | .spanStart _ => true
  | .spanSetAttr _ _ => true
  | .spanSetStatus _ => true
  | _ => false

/-- Is this event a gauge observation (an invocation of an observable
gauge callback by the export pipeline)? -/
def isGaugeObserve : Event → Bool
  | .gaugeObserve _ _ => true
  | _ => false

/-- Is this event a status-set to `error` on the current span? -/
def isErrorStatusSet : Event → Bool
  | .spanSetStatus .error => true
  | _ => false

/-- The span status in force at the end of the trace: the last
`spanSetStatus` wins, `unset` if none occurred. -/
def finalSpanStatus (tr : List Event) : SpanStatusCode :=
  tr.foldl (fun acc e => match e with | .spanSetStatus c => c | _ => acc) .unset

/-- Events occurring strictly after the first span-end of the trace. -/
def afterSpanEnd (tr : List Event) : List Event :=
  (tr.dropWhile (fun e => !isSpanEnd e)).drop 1

/-- Net change applied to the `active_users` up/down counter by the
trace: sum of all deltas recorded against that instrument name. -/
def activeUsersDelta (tr : List Event) : Int :=
  (tr.filterMap (fun e => match e with
    | .upDownAdd n d _ => if n == active_users.name then some d else none
    | _ => none)).sum

/-- All values added to the shared `http_requests_total` counter by the
trace, tagged with endpoint `ep`, in order. -/
def requestCounterAdds (ep : String) (tr : List Event) : List Int :=
  tr.filterMap (fun e => match e with
    | .counterAdd n v attrs =>
        if n == request_counter.name && attrs.contains ("endpoint", ep) then some v else none
    | _ => none)

/-- Modelled from the spec: the shared request counter is updated by
atomic increments ("increments must be atomic"), so a concurrent
execution is any interleaving of the individual add operations, applied
sequentially. -/
def applySchedule (c : Int) (sched : List Int) : Int :=
  sched.foldl (· + ·) c

/-! ### Helper lemmas -/

/-- Folding atomic adds starting from `c` yields `c` plus the sum of the
scheduled increments. -/
theorem applySchedule_eq_sum (c : Int) (l : List Int) : applySchedule c l = c + l.sum := by
  induction l generalizing c with
  | nil => simp [applySchedule]
  | cons a t ih =>
      simp only [applySchedule, List.foldl_cons] at *
      rw [ih (c + a), List.sum_cons]
      ring

/-- Every execution of `hello` adds exactly the single increment `1` to
the request counter under its own endpoint tag. -/
theorem hello_requestAdds (r : HelloRand) : requestCounterAdds "/" (hello r).2 = [1] := by
  by_cases h : r.errDraw < 1/10
  · unfold hello requestCounterAdds; rw [if_pos h]; rfl
  · unfold hello requestCounterAdds; rw [if_neg h]; rfl

/-- Every execution of `metrics_endpoint` adds exactly the single
increment `1` to the request counter under its own endpoint tag. -/
theorem metrics_requestAdds (r : MetricsRand) :
    requestCounterAdds "/metrics" (metrics_endpoint r).2 = [1] := rfl

/-- The execution of `error_endpoint` adds exactly the single increment
`1` to the request counter under its own endpoint tag. -/
theorem error_requestAdds : requestCounterAdds "/error" error_endpoint.2 = [1] := rfl

/-- Sum of the request-counter increments contributed by a batch of
`hello` executions. -/
theorem hello_batch_sum (rs : List HelloRand) :
    ((rs.map (fun r => requestCounterAdds "/" (hello r).2)).flatten).sum = rs.length := by
  induction rs with
  | nil => simp
  | cons a t ih => simp [hello_requestAdds, ih]; omega

/-- Sum of the request-counter increments contributed by a batch of
`metrics_endpoint` executions. -/
theorem metrics_batch_sum (rs : List MetricsRand) :
    ((rs.map (fun r => requestCounterAdds "/metrics" (metrics_endpoint r).2)).flatten).sum
      = rs.length := by
  induction rs with
  | nil => simp
  | cons a t ih => simp [metrics_requestAdds, ih]; omega

/-- Sum of the request-counter increments contributed by `n` executions
of `error_endpoint`. -/
theorem error_batch_sum (n : Nat) :
    (((List.replicate n error_endpoint).map (fun p => requestCounterAdds "/error" p.2)).flatten).sum
      = n := by
  induction n with
  | zero => simp
  | succ m ih => simp only [List.replicate_succ, List.map_cons, List.flatten_cons,
      List.sum_append, ih, error_requestAdds]; simp; omega

/-! ### Claims -/

/-- C1: every request to `/error` returns the body
`{"error": "Simulated error"}` with HTTP status 500, and the handler
performs exactly one increment of the error counter, opens exactly one
span, and sets error status on it exactly once, ending with that error
status in force. -/
theorem C1_error_endpoint_behaviour :
    error_endpoint.1 = ⟨500, [("error", JVal.jstr "Simulated error")]⟩ ∧
    error_endpoint.2.countP (isCounterAdd error_counter.name) = 1 ∧
    error_endpoint.2.countP isSpanStart = 1 ∧
    error_endpoint.2.countP isErrorStatusSet = 1 ∧
    finalSpanStatus error_endpoint.2 = .error :=
  ⟨rfl, rfl, rfl, rfl, rfl⟩

/-- C3: every request to `/` yields either the success body with HTTP
200 or the error body with HTTP 500; no other response is possible. -/
theorem C3_hello_response_dichotomy (r : HelloRand) :
    (hello r).1 = ⟨200, [("message", JVal.jstr "Hello, OpenTelemetry!")]⟩ ∨
    (hello r).1 = ⟨500, [("error", JVal.jstr "Simulated error")]⟩ := by
  by_cases h : r.errDraw < 1/10
  · right; unfold hello; rw [if_pos h]
  · left; unfold hello; rw [if_neg h]

/-- C6: every request to `/metrics` yields HTTP 200 with a JSON body
holding exactly the keys active_users (an integer), memory_usage (an
integer) and cpu_usage (a float), in that order. -/
theorem C6_metrics_response_shape (r : MetricsRand) :
    (metrics_endpoint r).1.status = 200 ∧
    ∃ a m : Int, ∃ c : ℚ,
      (metrics_endpoint r).1.body =
        [("active_users", JVal.jint a), ("memory_usage", JVal.jint m),
         ("cpu_usage", JVal.jfloat c)] :=
  ⟨rfl, r.activeUsersVal, r.memVal, r.cpuVal, rfl⟩

/-- C5: the single process-wide Resource (service.name = simple-app) is
the one handed to all three providers, and every record exported through
any of them is stamped with exactly that Resource. -/
theorem C5_resource_on_every_record :
    logger_provider.res = resource ∧
    trace_provider.res = resource ∧
    meter_provider.res = resource ∧
    resource = [("service.name", "simple-app")] ∧
    ∀ e : Event,
      (exportRecord logger_provider e).res = resource ∧
      (exportRecord trace_provider e).res = resource ∧
      (exportRecord meter_provider e).res = resource :=
  ⟨rfl, rfl, rfl, rfl, fun _ => ⟨rfl, rfl, rfl⟩⟩

/-- C2 counterexample: the `/error` handler performs no duration
observation at all (app.py 156-158 record only the two counters), so
the claim that every request to any of the three endpoints produces
exactly one duration observation is false for the `/error` request. -/
theorem C2_counterexample :
    ¬ error_endpoint.2.countP (isHistRecord request_duration.name) = 1 := by
  decide

/-- C2 (amended): every request performs exactly one request-count
increment tagged with its own endpoint name and no increment tagged
otherwise; requests to `/` and `/metrics` additionally perform exactly
one duration observation tagged with their own endpoint, while `/error`
performs none. -/
theorem C2_per_endpoint_tagging :
    (∀ r : HelloRand,
      (hello r).2.countP (isTaggedCounterAdd request_counter.name "/") = 1 ∧
      (hello r).2.countP (isCounterAdd request_counter.name) = 1 ∧
      (hello r).2.countP (isTaggedHistRecord request_duration.name "/") = 1 ∧
      (hello r).2.countP (isHistRecord request_duration.name) = 1) ∧
    (∀ r : MetricsRand,
      (metrics_endpoint r).2.countP (isTaggedCounterAdd request_counter.name "/metrics") = 1 ∧
      (metrics_endpoint r).2.countP (isCounterAdd request_counter.name) = 1 ∧
      (metrics_endpoint r).2.countP (isTaggedHistRecord request_duration.name "/metrics") = 1 ∧
      (metrics_endpoint r).2.countP (isHistRecord request_duration.name) = 1) ∧
    (error_endpoint.2.countP (isTaggedCounterAdd request_counter.name "/error") = 1 ∧
     error_endpoint.2.countP (isCounterAdd request_counter.name) = 1 ∧
     error_endpoint.2.countP (isHistRecord request_duration.name) = 0) := by
  refine ⟨fun r => ?_, fun r => ⟨rfl, rfl, rfl, rfl⟩, rfl, rfl, rfl⟩
  by_cases h : r.errDraw < 1/10
  · unfold hello; rw [if_pos h]; exact ⟨rfl, rfl, rfl, rfl⟩
  · unfold hello; rw [if_neg h]; exact ⟨rfl, rfl, rfl, rfl⟩

/-- C4: across all three handlers, the span status in force at span end
is error exactly when the execution took the error branch (the
10%-probability branch of `/`, never for `/metrics`, always for
`/error`), and the error branch is exactly the one returning HTTP
500; success responses never carry an error status. -/
theorem C4_span_error_iff_error_branch :
    (∀ r : HelloRand,
      (finalSpanStatus (hello r).2 = .error ↔ r.errDraw < 1/10) ∧
      ((hello r).1.status = 500 ↔ r.errDraw < 1/10)) ∧
    (∀ r : MetricsRand,
      finalSpanStatus (metrics_endpoint r).2 ≠ .error ∧
      (metrics_endpoint r).1.status = 200) ∧
    (finalSpanStatus error_endpoint.2 = .error ∧
     error_endpoint.1.status = 500) := by
  refine ⟨fun r => ?_,
    fun r => ⟨fun hh => (by decide : SpanStatusCode.unset ≠ .error) hh, rfl⟩, rfl, rfl⟩
  by_cases h : r.errDraw < 1/10
  · unfold hello; rw [if_pos h]
    exact ⟨iff_of_true rfl h, iff_of_true rfl h⟩
  · unfold hello; rw [if_neg h]
    exact ⟨iff_of_false (fun hh => (by decide : SpanStatusCode.unset ≠ .error) hh) h,
           iff_of_false (fun hh => (by decide : (200 : Nat) ≠ 500) hh) h⟩

/-- C7: in every execution of every handler, on every exit path, the
span opened at the top is ended exactly once and the trace contains
nothing after the span end — in particular no span mutation (attribute
set, status set) occurs after the end. -/
theorem C7_span_finalized_on_every_path :
    (∀ r : HelloRand,
      (hello r).2.countP isSpanStart = 1 ∧
      (hello r).2.countP isSpanEnd = 1 ∧
      afterSpanEnd (hello r).2 = []) ∧
    (∀ r : MetricsRand,
      (metrics_endpoint r).2.countP isSpanStart = 1 ∧
      (metrics_endpoint r).2.countP isSpanEnd = 1 ∧
      afterSpanEnd (metrics_endpoint r).2 = []) ∧
    (error_endpoint.2.countP isSpanStart = 1 ∧
     error_endpoint.2.countP isSpanEnd = 1 ∧
     afterSpanEnd error_endpoint.2 = []) := by
  refine ⟨fun r => ?_, fun r => ⟨rfl, rfl, rfl⟩, rfl, rfl, rfl⟩
  by_cases h : r.errDraw < 1/10
  · unfold hello afterSpanEnd; rw [if_pos h]; exact ⟨rfl, rfl, rfl⟩
  · unfold hello afterSpanEnd; rw [if_neg h]; exact ⟨rfl, rfl, rfl⟩

/-- C8: no handler execution ever invokes an observable-gauge callback
(no gauge observation appears in any request trace); the registered
callbacks of both gauges are side-effect-free (their side-effect list is
empty for every draw); and the export tick is the place where the
callbacks are invoked, producing exactly the two gauge observations. -/
theorem C8_gauge_callbacks_export_only :
    (∀ r : HelloRand, (hello r).2.countP isGaugeObserve = 0) ∧
    (∀ r : MetricsRand, (metrics_endpoint r).2.countP isGaugeObserve = 0) ∧
    error_endpoint.2.countP isGaugeObserve = 0 ∧
    (∀ d : Int, memory_usage.callbacks.map (fun cb => (cb d).2) = [[]]) ∧
    (∀ q : ℚ, cpu_usage.callbacks.map (fun cb => (cb q).2) = [[]]) ∧
    (∀ (d : Int) (q : ℚ), exportTick d q =
       [Event.gaugeObserve memory_usage.name (JVal.jint d),
        Event.gaugeObserve cpu_usage.name (JVal.jfloat q)]) := by
  refine ⟨fun r => ?_, fun r => rfl, rfl, fun d => rfl, fun q => rfl, fun d q => rfl⟩
  by_cases h : r.errDraw < 1/10
  · unfold hello; rw [if_pos h]; rfl
  · unfold hello; rw [if_neg h]; rfl

/-- C9: for every N, any interleaving (permutation) of the atomic
request-counter increments produced by N requests to the same endpoint,
applied to the shared counter, adds exactly N — no lost updates. -/
theorem C9_concurrent_increments (c : Int) (n : Nat) :
    (∀ (rs : List HelloRand) (sched : List Int), rs.length = n →
       sched.Perm ((rs.map (fun r => requestCounterAdds "/" (hello r).2)).flatten) →
       applySchedule c sched = c + n) ∧
    (∀ (rs : List MetricsRand) (sched : List Int), rs.length = n →
       sched.Perm ((rs.map (fun r => requestCounterAdds "/metrics" (metrics_endpoint r).2)).flatten) →
       applySchedule c sched = c + n) ∧
    (∀ sched : List Int,
       sched.Perm (((List.replicate n error_endpoint).map
         (fun p => requestCounterAdds "/error" p.2)).flatten) →
       applySchedule c sched = c + n) := by
  refine ⟨fun rs sched hn hperm => ?_, fun rs sched hn hperm => ?_, fun sched hperm => ?_⟩
  · rw [applySchedule_eq_sum, hperm.sum_eq, hello_batch_sum, hn]
  · rw [applySchedule_eq_sum, hperm.sum_eq, metrics_batch_sum, hn]
  · rw [applySchedule_eq_sum, hperm.sum_eq, error_batch_sum]

/-- Witness for C9: two concrete requests to `/` whose increments,
taken in order, move the counter from 0 to 2. -/
theorem C9_concurrent_increments_witness :
    ([(⟨1/4, 0, 2⟩ : HelloRand), ⟨1/3, 1, 2⟩].length = 2) ∧
    applySchedule 0
      (([(⟨1/4, 0, 2⟩ : HelloRand), ⟨1/3, 1, 2⟩].map
        (fun r => requestCounterAdds "/" (hello r).2)).flatten) = 0 + 2 :=
  ⟨rfl, (C9_concurrent_increments 0 2).1 [⟨1/4, 0, 2⟩, ⟨1/3, 1, 2⟩] _ rfl (List.Perm.refl _)⟩

/-- C10: in every handler execution, given the randint(-1, 1) contract
on the drawn delta, the active_users up/down counter changes by exactly
that delta, which lies in the interval from -1 to 1, for `/` and for
`/metrics`; a request to `/error` leaves the counter unchanged. -/
theorem C10_active_users_delta :
    (∀ r : HelloRand, -1 ≤ r.userDelta → r.userDelta ≤ 1 →
       activeUsersDelta (hello r).2 = r.userDelta ∧
       -1 ≤ activeUsersDelta (hello r).2 ∧ activeUsersDelta (hello r).2 ≤ 1) ∧
    (∀ r : MetricsRand, -1 ≤ r.userDelta → r.userDelta ≤ 1 →
       activeUsersDelta (metrics_endpoint r).2 = r.userDelta ∧
       -1 ≤ activeUsersDelta (metrics_endpoint r).2 ∧
       activeUsersDelta (metrics_endpoint r).2 ≤ 1) ∧
    activeUsersDelta error_endpoint.2 = 0 := by
  have hh : ∀ r : HelloRand, activeUsersDelta (hello r).2 = r.userDelta := by
    intro r
    by_cases h : r.errDraw < 1/10
    · unfold hello activeUsersDelta; rw [if_pos h]; simp
    · unfold hello activeUsersDelta; rw [if_neg h]; simp
  have hm : ∀ r : MetricsRand, activeUsersDelta (metrics_endpoint r).2 = r.userDelta := by
    intro r; unfold metrics_endpoint activeUsersDelta; simp
  refine ⟨fun r h1 h2 => ⟨hh r, ?_, ?_⟩, fun r h1 h2 => ⟨hm r, ?_, ?_⟩, rfl⟩
  · rw [hh r]; exact h1
  · rw [hh r]; exact h2
  · rw [hm r]; exact h1
  · rw [hm r]; exact h2

/-- Witness for C10: a concrete `/` request drawing delta 1 and a
concrete `/metrics` request drawing delta -1. -/
theorem C10_active_users_delta_witness :
    ((-1 : Int) ≤ 1 ∧ (1 : Int) ≤ 1 ∧
      activeUsersDelta (hello ⟨1/4, 1, 1/2⟩).2 = 1) ∧
    ((-1 : Int) ≤ -1 ∧ (-1 : Int) ≤ 1 ∧
      activeUsersDelta (metrics_endpoint ⟨1/2, -1, 100, 1500000, 50⟩).2 = -1) :=
  ⟨⟨by decide, by decide,
    (C10_active_users_delta.1 ⟨1/4, 1, 1/2⟩ (by decide) (by decide)).1⟩,
   ⟨by decide, by decide,
    (C10_active_users_delta.2.1 ⟨1/2, -1, 100, 1500000, 50⟩ (by decide) (by decide)).1⟩⟩

end SimpleApp
